import Mathlib

/-!
Shallow embedding of src/xfields/beam_elements/beambeam_src/beambeam3d.h:
the Hirata synchro-beam kick (synchrobeam_kick, lines 10-166) and the slice
loop of the track driver (BeamBeamBiGaussian3D_track_local_particle, lines
254-284).  C doubles are modelled as rationals.  The external collaborators
that the specification declares out of scope (the sigma-matrix propagator,
the Gaussian field and gradient solvers, sqrt and hypot from libm, the two
radiation models and the particle energy accessors) are abstract parameters
gathered in an environment record; only their interfaces are fixed, as in
section 6 of the specification.  The particle object (LocalParticle) is
represented by the one piece of its state this kernel reads and writes
through accessors: its internal pzeta (energy-deviation) value.
-/

/-- Speed of light in m/s, the C_LIGHT constant of the xfields headers. -/
def C_LIGHT : ℚ := 299792458

/-- Elementary charge in C, the QELEM constant of the xfields headers. -/
def QELEM : ℚ := 1.602176634e-19

/-- Output record of the sigma-matrix propagation/diagonalization collaborator
(Sigmas_propagate): the two principal variances at the collision point, the
diagonalizing rotation, and their derivatives with respect to S. -/
structure SigmasResult where
  Sig_11_hat_star : ℚ
  Sig_33_hat_star : ℚ
  costheta : ℚ
  sintheta : ℚ
  dS_Sig_11_hat_star : ℚ
  dS_Sig_33_hat_star : ℚ
  dS_costheta : ℚ
  dS_sintheta : ℚ

/-- Modelled from the spec: the external collaborators of the kernel, which
are not part of this repository's source (spec sections 1 and 6).  Each field
is an abstract function with the interface the spec fixes:
Sigmas_propagate takes the ten static Sigma entries, the drift S, the
singularity threshold and a flag; get_Ex_Ey_gauss takes the evaluation point,
the two beam sizes and min_sigma_diff; compute_Gx_Gy additionally takes the
already computed Ex, Ey; sqrt and hypot stand for the libm functions; rpp is
the particle momentum-normalization accessor LocalParticle_get_rpp as a
function of the particle's energy state; synrad (stochastic model) maps the
particle's energy state, the kick magnitude Fr and the path length dz to the
particle's new energy state; synrad_avg (averaged model) maps the particle's
energy state, the slice intensity, the two RMS sizes and the longitudinal
variance constant to the particle's new energy state. -/
structure Env where
  Sigmas_propagate : ℚ → ℚ → ℚ → ℚ → ℚ → ℚ → ℚ → ℚ → ℚ → ℚ → ℚ → ℚ → ℤ → SigmasResult
  get_Ex_Ey_gauss : ℚ → ℚ → ℚ → ℚ → ℚ → ℚ × ℚ
  compute_Gx_Gy : ℚ → ℚ → ℚ → ℚ → ℚ → ℚ → ℚ → ℚ × ℚ
  sqrt : ℚ → ℚ
  hypot : ℚ → ℚ → ℚ
  rpp : ℚ → ℚ
  synrad : ℚ → ℚ → ℚ → ℚ
  synrad_avg : ℚ → ℚ → ℚ → ℚ → ℚ → ℚ

/-- One strong-beam slice of the other beam, as read through the
BeamBeamBiGaussian3DData_get_slices_other_beam_* getters (lines 26-41, 145,
271 of beambeam3d.h). -/
structure Slice where
  Sigma_11_star : ℚ
  Sigma_12_star : ℚ
  Sigma_13_star : ℚ
  Sigma_14_star : ℚ
  Sigma_22_star : ℚ
  Sigma_23_star : ℚ
  Sigma_24_star : ℚ
  Sigma_33_star : ℚ
  Sigma_34_star : ℚ
  Sigma_44_star : ℚ
  num_particles : ℚ
  x_center_star : ℚ
  y_center_star : ℚ
  zeta_center_star : ℚ
  num_macroparticles : ℚ
  zeta_bin_width_star : ℚ

/-- The element configuration fields of BeamBeamBiGaussian3DData that the
kick and the slice loop read (lines 21-24, 181, 271 of beambeam3d.h).  The
slice table is modelled as a total function from the slice index, mirroring
the per-index getters of the C code. -/
structure BeamBeamBiGaussian3DData where
  other_beam_q0 : ℚ
  min_sigma_diff : ℚ
  threshold_singular : ℚ
  do_beamstrahlung : ℤ
  num_slices_other_beam : ℕ
  slices_other_beam : ℕ → Slice

/-- Every value computed by one synchrobeam_kick invocation: the named
intermediates of lines 43-126 of beambeam3d.h together with the mutated
outputs (the six starred coordinates and the particle's internal energy
state after the optional radiation branch). -/
structure KickResult where
  Ksl : ℚ
  S : ℚ
  Sig_11_hat_star : ℚ
  Sig_33_hat_star : ℚ
  costheta : ℚ
  sintheta : ℚ
  dS_Sig_11_hat_star : ℚ
  dS_Sig_33_hat_star : ℚ
  dS_costheta : ℚ
  dS_sintheta : ℚ
  x_bar_star : ℚ
  y_bar_star : ℚ
  x_bar_hat_star : ℚ
  y_bar_hat_star : ℚ
  dS_x_bar_hat_star : ℚ
  dS_y_bar_hat_star : ℚ
  Ex : ℚ
  Ey : ℚ
  Gx : ℚ
  Gy : ℚ
  Fx_hat_star : ℚ
  Fy_hat_star : ℚ
  Gx_hat_star : ℚ
  Gy_hat_star : ℚ
  Fx_star : ℚ
  Fy_star : ℚ
  Fz_star : ℚ
  pzeta_bs : ℚ
  part_out : ℚ
  x_out : ℚ
  px_out : ℚ
  y_out : ℚ
  py_out : ℚ
  zeta_out : ℚ
  pzeta_out : ℚ

/-- synchrobeam_kick (beambeam3d.h lines 10-166).  Arguments follow the C
signature: element data, slice index, the particle reference quantities q0
and p0c, the particle's internal energy state (part, read and written by the
radiation collaborators through LocalParticle accessors), and the six
boosted-frame coordinates passed by reference.  The returned record holds
every intermediate together with the final values of the six coordinates
and of the particle's internal energy state.  pzeta_bs is the value of
pzeta_star just before the final kick update of lines 158-160, i.e. after
the optional beamstrahlung reload of lines 149/154. -/
def synchrobeam_kick (env : Env) (el : BeamBeamBiGaussian3DData) (i_slice : ℕ)
    (q0 p0c : ℚ) (part : ℚ)
    (x_star px_star y_star py_star zeta_star pzeta_star : ℚ) : KickResult :=
  -- Get data from memory
  let q0_bb := el.other_beam_q0
  let min_sigma_diff := el.min_sigma_diff
  let threshold_singular := el.threshold_singular
  let do_beamstrahlung := el.do_beamstrahlung
  let Sig_11_0 := (el.slices_other_beam i_slice).Sigma_11_star
  let Sig_12_0 := (el.slices_other_beam i_slice).Sigma_12_star
  let Sig_13_0 := (el.slices_other_beam i_slice).Sigma_13_star
  let Sig_14_0 := (el.slices_other_beam i_slice).Sigma_14_star
  let Sig_22_0 := (el.slices_other_beam i_slice).Sigma_22_star
  let Sig_23_0 := (el.slices_other_beam i_slice).Sigma_23_star
  let Sig_24_0 := (el.slices_other_beam i_slice).Sigma_24_star
  let Sig_33_0 := (el.slices_other_beam i_slice).Sigma_33_star
  let Sig_34_0 := (el.slices_other_beam i_slice).Sigma_34_star
  let Sig_44_0 := (el.slices_other_beam i_slice).Sigma_44_star
  let num_part_slice := (el.slices_other_beam i_slice).num_particles
  let x_slice_star := (el.slices_other_beam i_slice).x_center_star
  let y_slice_star := (el.slices_other_beam i_slice).y_center_star
  let zeta_slice_star := (el.slices_other_beam i_slice).zeta_center_star
  let P0 := p0c / C_LIGHT * QELEM
  -- Compute force scaling factor
  let Ksl := num_part_slice * QELEM * q0_bb * QELEM * q0 / (P0 * C_LIGHT)
  -- Identify the Collision Point (CP)
  let S := 0.5 * (zeta_star - zeta_slice_star)
  -- Get strong beam shape at the CP
  let pr := env.Sigmas_propagate Sig_11_0 Sig_12_0 Sig_13_0 Sig_14_0 Sig_22_0
    Sig_23_0 Sig_24_0 Sig_33_0 Sig_34_0 Sig_44_0 S threshold_singular 1
  -- Evaluate transverse coordinates of the weak beam w.r.t. the strong beam centroid
  let x_bar_star := x_star + px_star * S - x_slice_star
  let y_bar_star := y_star + py_star * S - y_slice_star
  -- Move to the uncoupled reference frame
  let x_bar_hat_star := x_bar_star * pr.costheta + y_bar_star * pr.sintheta
  let y_bar_hat_star := -x_bar_star * pr.sintheta + y_bar_star * pr.costheta
  -- Compute derivatives of the transformation
  let dS_x_bar_hat_star := x_bar_star * pr.dS_costheta + y_bar_star * pr.dS_sintheta
  let dS_y_bar_hat_star := -x_bar_star * pr.dS_sintheta + y_bar_star * pr.dS_costheta
  -- Get transverse fields
  let EE := env.get_Ex_Ey_gauss x_bar_hat_star y_bar_hat_star
    (env.sqrt pr.Sig_11_hat_star) (env.sqrt pr.Sig_33_hat_star) min_sigma_diff
  let Ex := EE.1
  let Ey := EE.2
  -- Compute Gs
  let GG := env.compute_Gx_Gy x_bar_hat_star y_bar_hat_star
    (env.sqrt pr.Sig_11_hat_star) (env.sqrt pr.Sig_33_hat_star) min_sigma_diff Ex Ey
  let Gx := GG.1
  let Gy := GG.2
  -- Compute kicks
  let Fx_hat_star := Ksl * Ex
  let Fy_hat_star := Ksl * Ey
  let Gx_hat_star := Ksl * Gx
  let Gy_hat_star := Ksl * Gy
  -- Move kicks to coupled reference frame
  let Fx_star := Fx_hat_star * pr.costheta - Fy_hat_star * pr.sintheta
  let Fy_star := Fx_hat_star * pr.sintheta + Fy_hat_star * pr.costheta
  -- Compute longitudinal kick
  let Fz_star := 0.5 * (Fx_hat_star * dS_x_bar_hat_star + Fy_hat_star * dS_y_bar_hat_star +
    Gx_hat_star * pr.dS_Sig_11_hat_star + Gy_hat_star * pr.dS_Sig_33_hat_star)
  -- Emit beamstrahlung photons from single macropart; BS rescales the particle
  -- energy state, so pzeta_star is loaded again before the kick.  The pair is
  -- (particle energy state, pzeta_star) after the branch.
  let bs : ℚ × ℚ :=
    if do_beamstrahlung = 1 then
      let Fr := env.hypot Fx_star Fy_star * env.rpp part
      let dz := 0.5 * (el.slices_other_beam i_slice).zeta_bin_width_star
      let part1 := env.synrad part Fr dz
      (part1, part1)
    else if do_beamstrahlung = 2 then
      let var_z_bb : ℚ := 0.0121
      let part1 := env.synrad_avg part num_part_slice
        (env.sqrt pr.Sig_11_hat_star) (env.sqrt pr.Sig_33_hat_star) var_z_bb
      (part1, part1)
    else (part, pzeta_star)
  let part_out := bs.1
  let pzeta_bs := bs.2
  -- Apply the kicks (Hirata's synchro-beam)
  let pzeta_out := pzeta_bs + Fz_star + 0.5 * (Fx_star * (px_star + 0.5 * Fx_star) +
    Fy_star * (py_star + 0.5 * Fy_star))
  let x_out := x_star - S * Fx_star
  let px_out := px_star + Fx_star
  let y_out := y_star - S * Fy_star
  let py_out := py_star + Fy_star
  { Ksl := Ksl, S := S,
    Sig_11_hat_star := pr.Sig_11_hat_star, Sig_33_hat_star := pr.Sig_33_hat_star,
    costheta := pr.costheta, sintheta := pr.sintheta,
    dS_Sig_11_hat_star := pr.dS_Sig_11_hat_star, dS_Sig_33_hat_star := pr.dS_Sig_33_hat_star,
    dS_costheta := pr.dS_costheta, dS_sintheta := pr.dS_sintheta,
    x_bar_star := x_bar_star, y_bar_star := y_bar_star,
    x_bar_hat_star := x_bar_hat_star, y_bar_hat_star := y_bar_hat_star,
    dS_x_bar_hat_star := dS_x_bar_hat_star, dS_y_bar_hat_star := dS_y_bar_hat_star,
    Ex := Ex, Ey := Ey, Gx := Gx, Gy := Gy,
    Fx_hat_star := Fx_hat_star, Fy_hat_star := Fy_hat_star,
    Gx_hat_star := Gx_hat_star, Gy_hat_star := Gy_hat_star,
    Fx_star := Fx_star, Fy_star := Fy_star, Fz_star := Fz_star,
    pzeta_bs := pzeta_bs, part_out := part_out,
    x_out := x_out, px_out := px_out, y_out := y_out, py_out := py_out,
    zeta_out := zeta_star, pzeta_out := pzeta_out }

/-- The per-particle mutable state of the driver's slice loop: the six local
boosted-frame coordinates x, px, y, py, zeta, pzeta of
BeamBeamBiGaussian3D_track_local_particle, together with the particle
object's internal pzeta (the value returned by LocalParticle_get_pzeta and
written by LocalParticle_update_pzeta). -/
@[ext]
structure TrackState where
  x : ℚ
  px : ℚ
  y : ℚ
  py : ℚ
  zeta : ℚ
  pzeta : ℚ
  part_pzeta : ℚ

/-- One iteration of the slice loop of the driver (beambeam3d.h lines
254-284): reload the local pzeta from the particle (line 257); if the
slice's macroparticle count exceeds 2, invoke synchrobeam_kick on the local
coordinates and then resynchronize the particle's internal pzeta with the
mutated local pzeta through LocalParticle_update_pzeta (line 282); otherwise
do nothing further. -/
def synchrobeam_slice_step (env : Env) (el : BeamBeamBiGaussian3DData)
    (q0 p0c : ℚ) (st : TrackState) (i_slice : ℕ) : TrackState :=
  let pzeta := st.part_pzeta
  let num_macroparts_slice := (el.slices_other_beam i_slice).num_macroparticles
  if 2 < num_macroparts_slice then
    let r := synchrobeam_kick env el i_slice q0 p0c st.part_pzeta
      st.x st.px st.y st.py st.zeta pzeta
    { x := r.x_out, px := r.px_out, y := r.y_out, py := r.py_out,
      zeta := r.zeta_out, pzeta := r.pzeta_out, part_pzeta := r.pzeta_out }
  else
    { st with pzeta := pzeta }

/-- The full slice loop of the driver: iterate i_slice = 0 .. N_slices - 1 in
increasing order (beambeam3d.h line 254). -/
def BeamBeamBiGaussian3D_track_slices (env : Env) (el : BeamBeamBiGaussian3DData)
    (q0 p0c : ℚ) (st : TrackState) : TrackState :=
  (List.range el.num_slices_other_beam).foldl (synchrobeam_slice_step env el q0 p0c) st

/-- A concrete instantiation of the collaborator environment, used to
evaluate the embedding on closed inputs: the propagator returns unit round
principal variances with the identity rotation and vanishing S-derivatives,
the field solver is the identity map on the evaluation point, the gradient
solver vanishes, and the radiation models subtract their kick magnitude
resp. the slice intensity from the particle energy state. -/
def env0 : Env where
  Sigmas_propagate := fun _ _ _ _ _ _ _ _ _ _ _ _ _ => ⟨1, 1, 1, 0, 0, 0, 0, 0⟩
  get_Ex_Ey_gauss := fun x y _ _ _ => (x, y)
  compute_Gx_Gy := fun _ _ _ _ _ _ _ => (0, 0)
  sqrt := fun q => q
  hypot := fun a b => a + b
  rpp := fun _ => 1
  synrad := fun p Fr _ => p - Fr
  synrad_avg := fun p n _ _ _ => p - n

/-- A concrete strong-beam slice: unit Sigma diagonal, centered at the
origin, intensity 1, 10 macroparticles, unit bin width. -/
def slice0 : Slice where
  Sigma_11_star := 1
  Sigma_12_star := 0
  Sigma_13_star := 0
  Sigma_14_star := 0
  Sigma_22_star := 0
  Sigma_23_star := 0
  Sigma_24_star := 0
  Sigma_33_star := 1
  Sigma_34_star := 0
  Sigma_44_star := 0
  num_particles := 1
  x_center_star := 0
  y_center_star := 0
  zeta_center_star := 0
  num_macroparticles := 10
  zeta_bin_width_star := 1

/-- An asymmetric two-slice element: slice 0 is slice0 at zeta = 0 and
slice 1 is slice0 shifted to zeta = 2, beamstrahlung off. -/
def el8 : BeamBeamBiGaussian3DData where
  other_beam_q0 := 1
  min_sigma_diff := 0
  threshold_singular := 0
  do_beamstrahlung := 0
  num_slices_other_beam := 2
  slices_other_beam := fun i => if i = 0 then slice0 else { slice0 with zeta_center_star := 2 }

/-- A one-slice element with averaged beamstrahlung enabled and a slice of
zero intensity but 10 macroparticles. -/
def el3 : BeamBeamBiGaussian3DData :=
  { el8 with do_beamstrahlung := 2,
             num_slices_other_beam := 1,
             slices_other_beam := fun _ => { slice0 with num_particles := 0 } }

/-- A one-slice element whose slice has exactly 2 macroparticles. -/
def el4 : BeamBeamBiGaussian3DData :=
  { el8 with num_slices_other_beam := 1,
             slices_other_beam := fun _ => { slice0 with num_macroparticles := 2 } }

/-- A concrete loop state: x = 1, all other coordinates zero, particle
energy state synchronized with the local pzeta. -/
def st0 : TrackState := ⟨1, 0, 0, 0, 0, 0, 0⟩

/-- Helper: one slice-loop iteration never modifies the local zeta. -/
lemma synchrobeam_slice_step_zeta (env : Env) (el : BeamBeamBiGaussian3DData)
    (q0 p0c : ℚ) (st : TrackState) (i_slice : ℕ) :
    (synchrobeam_slice_step env el q0 p0c st i_slice).zeta = st.zeta := by
  unfold synchrobeam_slice_step
  dsimp only
  split
  · rfl
  · rfl

/-- Helper: folding the slice step over any list of slice indices never
modifies the local zeta. -/
lemma foldl_slice_step_zeta (env : Env) (el : BeamBeamBiGaussian3DData)
    (q0 p0c : ℚ) :
    ∀ (l : List ℕ) (st : TrackState),
      (l.foldl (synchrobeam_slice_step env el q0 p0c) st).zeta = st.zeta := by
  intro l
  induction l with
  | nil => intro st; rfl
  | cons a t ih => intro st; rw [List.foldl_cons, ih, synchrobeam_slice_step_zeta]

/-- C1: for every particle/slice pair the final state update of
synchrobeam_kick is exactly the symplectic Hirata map of lines 157-164:
pzeta is incremented (from its value after the optional beamstrahlung
reload) by Fz_star plus 0.5 times (Fx_star times (px + 0.5 Fx_star) plus
Fy_star times (py + 0.5 Fy_star)) using the pre-kick px and py; x is
decremented by S times Fx_star, px incremented by Fx_star, y decremented by
S times Fy_star, py incremented by Fy_star, where S is the pre-kick
collision-point half-separation 0.5 (zeta - zeta_slice). -/
theorem synchrobeam_kick_final_update (env : Env) (el : BeamBeamBiGaussian3DData)
    (i_slice : ℕ) (q0 p0c part x px y py zeta pz : ℚ) :
    let r := synchrobeam_kick env el i_slice q0 p0c part x px y py zeta pz
    r.S = 0.5 * (zeta - (el.slices_other_beam i_slice).zeta_center_star) ∧
    r.pzeta_out = r.pzeta_bs + r.Fz_star + 0.5 * (r.Fx_star * (px + 0.5 * r.Fx_star) +
      r.Fy_star * (py + 0.5 * r.Fy_star)) ∧
    r.x_out = x - r.S * r.Fx_star ∧
    r.px_out = px + r.Fx_star ∧
    r.y_out = y - r.S * r.Fy_star ∧
    r.py_out = py + r.Fy_star :=
  ⟨rfl, rfl, rfl, rfl, rfl, rfl⟩

/-- C2: the longitudinal kick Fz_star equals one-half the sum over both
transverse planes of the diagonal-frame transverse kick times the
S-derivative of the diagonal-frame transverse offset, plus the
diagonal-frame gradient kick times the S-derivative of the corresponding
principal variance returned by the Sigma propagator (lines 124-126). -/
theorem synchrobeam_kick_Fz_formula (env : Env) (el : BeamBeamBiGaussian3DData)
    (i_slice : ℕ) (q0 p0c part x px y py zeta pz : ℚ) :
    let r := synchrobeam_kick env el i_slice q0 p0c part x px y py zeta pz
    let sl := el.slices_other_beam i_slice
    let pr := env.Sigmas_propagate sl.Sigma_11_star sl.Sigma_12_star sl.Sigma_13_star
      sl.Sigma_14_star sl.Sigma_22_star sl.Sigma_23_star sl.Sigma_24_star sl.Sigma_33_star
      sl.Sigma_34_star sl.Sigma_44_star r.S el.threshold_singular 1
    r.Fz_star = 0.5 * (r.Fx_hat_star * r.dS_x_bar_hat_star + r.Fy_hat_star * r.dS_y_bar_hat_star +
      r.Gx_hat_star * pr.dS_Sig_11_hat_star + r.Gy_hat_star * pr.dS_Sig_33_hat_star) ∧
    r.dS_x_bar_hat_star = r.x_bar_star * pr.dS_costheta + r.y_bar_star * pr.dS_sintheta ∧
    r.dS_y_bar_hat_star = -r.x_bar_star * pr.dS_sintheta + r.y_bar_star * pr.dS_costheta ∧
    r.dS_Sig_11_hat_star = pr.dS_Sig_11_hat_star ∧
    r.dS_Sig_33_hat_star = pr.dS_Sig_33_hat_star :=
  ⟨rfl, rfl, rfl, rfl, rfl⟩

/-- C5: the collision point sits at S = 0.5 (zeta - zeta_slice), the
particle's transverse offset from the slice centroid is the drifted offset
x + px S - x_slice (and likewise in y), and this offset is expressed in the
diagonal frame via the rotation (costheta, sintheta) returned by the Sigma
propagator (lines 48-49, 73-95). -/
theorem synchrobeam_kick_collision_geometry (env : Env) (el : BeamBeamBiGaussian3DData)
    (i_slice : ℕ) (q0 p0c part x px y py zeta pz : ℚ) :
    let r := synchrobeam_kick env el i_slice q0 p0c part x px y py zeta pz
    let sl := el.slices_other_beam i_slice
    let pr := env.Sigmas_propagate sl.Sigma_11_star sl.Sigma_12_star sl.Sigma_13_star
      sl.Sigma_14_star sl.Sigma_22_star sl.Sigma_23_star sl.Sigma_24_star sl.Sigma_33_star
      sl.Sigma_34_star sl.Sigma_44_star r.S el.threshold_singular 1
    r.S = 0.5 * (zeta - sl.zeta_center_star) ∧
    r.x_bar_star = x + px * r.S - sl.x_center_star ∧
    r.y_bar_star = y + py * r.S - sl.y_center_star ∧
    r.x_bar_hat_star = r.x_bar_star * pr.costheta + r.y_bar_star * pr.sintheta ∧
    r.y_bar_hat_star = -r.x_bar_star * pr.sintheta + r.y_bar_star * pr.costheta ∧
    r.costheta = pr.costheta ∧
    r.sintheta = pr.sintheta :=
  ⟨rfl, rfl, rfl, rfl, rfl, rfl, rfl⟩

/-- C9: synchrobeam_kick never modifies the longitudinal coordinate zeta;
consequently zeta is constant across the entire slice loop of the driver,
and each slice's collision point S = 0.5 (zeta - zeta_slice) depends only on
the loop-invariant zeta and that slice's center, independently of the kicks
applied by earlier slices. -/
theorem synchrobeam_zeta_invariant :
    (∀ (env : Env) (el : BeamBeamBiGaussian3DData) (i_slice : ℕ)
       (q0 p0c part x px y py zeta pz : ℚ),
      (synchrobeam_kick env el i_slice q0 p0c part x px y py zeta pz).zeta_out = zeta) ∧
    (∀ (env : Env) (el : BeamBeamBiGaussian3DData) (q0 p0c : ℚ) (st : TrackState),
      (BeamBeamBiGaussian3D_track_slices env el q0 p0c st).zeta = st.zeta) ∧
    (∀ (env : Env) (el : BeamBeamBiGaussian3DData) (i_slice : ℕ)
       (q0 p0c part x px y py zeta pz : ℚ),
      (synchrobeam_kick env el i_slice q0 p0c part x px y py zeta pz).S =
        0.5 * (zeta - (el.slices_other_beam i_slice).zeta_center_star)) := by
  refine ⟨fun _ _ _ _ _ _ _ _ _ _ _ _ => rfl, ?_, fun _ _ _ _ _ _ _ _ _ _ _ _ => rfl⟩
  intro env el q0 p0c st
  exact foldl_slice_step_zeta env el q0 p0c _ st

/-- C6: the force-scaling factor equals Ksl = num_part_slice QELEM q0_bb
QELEM q0 / (P0 C_LIGHT) with P0 = p0c QELEM / C_LIGHT the reference momentum
in SI units, and both the field outputs Ex, Ey and the gradient outputs
Gx, Gy are multiplied by this same Ksl to form the diagonal-frame kick
components (lines 43-46, 101-118). -/
theorem synchrobeam_kick_force_scaling (env : Env) (el : BeamBeamBiGaussian3DData)
    (i_slice : ℕ) (q0 p0c part x px y py zeta pz : ℚ) :
    let r := synchrobeam_kick env el i_slice q0 p0c part x px y py zeta pz
    let sl := el.slices_other_beam i_slice
    let P0 := p0c * QELEM / C_LIGHT
    r.Ksl = sl.num_particles * QELEM * el.other_beam_q0 * QELEM * q0 / (P0 * C_LIGHT) ∧
    r.Fx_hat_star = r.Ksl * r.Ex ∧
    r.Fy_hat_star = r.Ksl * r.Ey ∧
    r.Gx_hat_star = r.Ksl * r.Gx ∧
    r.Gy_hat_star = r.Ksl * r.Gy ∧
    r.Ex = (env.get_Ex_Ey_gauss r.x_bar_hat_star r.y_bar_hat_star
      (env.sqrt r.Sig_11_hat_star) (env.sqrt r.Sig_33_hat_star) el.min_sigma_diff).1 ∧
    r.Ey = (env.get_Ex_Ey_gauss r.x_bar_hat_star r.y_bar_hat_star
      (env.sqrt r.Sig_11_hat_star) (env.sqrt r.Sig_33_hat_star) el.min_sigma_diff).2 ∧
    r.Gx = (env.compute_Gx_Gy r.x_bar_hat_star r.y_bar_hat_star
      (env.sqrt r.Sig_11_hat_star) (env.sqrt r.Sig_33_hat_star) el.min_sigma_diff r.Ex r.Ey).1 ∧
    r.Gy = (env.compute_Gx_Gy r.x_bar_hat_star r.y_bar_hat_star
      (env.sqrt r.Sig_11_hat_star) (env.sqrt r.Sig_33_hat_star) el.min_sigma_diff r.Ex r.Ey).2 := by
  refine ⟨?_, rfl, rfl, rfl, rfl, rfl, rfl, rfl, rfl⟩
  show (el.slices_other_beam i_slice).num_particles * QELEM * el.other_beam_q0 * QELEM * q0 /
      (p0c / C_LIGHT * QELEM * C_LIGHT) =
    (el.slices_other_beam i_slice).num_particles * QELEM * el.other_beam_q0 * QELEM * q0 /
      (p0c * QELEM / C_LIGHT * C_LIGHT)
  ring

/-- C3: if the slice intensity num_particles is 0, the kick components
Fx_star, Fy_star, Fz_star are all exactly 0 and the six coordinates are
unchanged.  The hypotheses on env are the interface contracts of the libm
hypot function and of the two radiation models at zero force resp. zero
intensity; hpz reflects that the driver always invokes the kick with the
local pzeta freshly reloaded from the particle (line 257). -/
theorem synchrobeam_kick_zero_intensity (env : Env) (el : BeamBeamBiGaussian3DData)
    (i_slice : ℕ) (q0 p0c part x px y py zeta pz : ℚ)
    (h0 : (el.slices_other_beam i_slice).num_particles = 0)
    (hpz : pz = part)
    (hhypot : env.hypot 0 0 = 0)
    (hsynrad : ∀ p dz, env.synrad p 0 dz = p)
    (hsynrad_avg : ∀ p sx sy vz, env.synrad_avg p 0 sx sy vz = p) :
    let r := synchrobeam_kick env el i_slice q0 p0c part x px y py zeta pz
    r.Fx_star = 0 ∧ r.Fy_star = 0 ∧ r.Fz_star = 0 ∧
    r.x_out = x ∧ r.px_out = px ∧ r.y_out = y ∧ r.py_out = py ∧
    r.zeta_out = zeta ∧ r.pzeta_out = pz ∧ r.part_out = part := by
  simp only [synchrobeam_kick, h0]
  split_ifs with h1 h2 <;>
    simp [hhypot, hsynrad, hsynrad_avg, hpz]

/-- Witness for C3: a concrete zero-intensity slice with averaged
beamstrahlung enabled leaves a concrete particle state untouched. -/
theorem synchrobeam_kick_zero_intensity_witness :
    let r := synchrobeam_kick env0 el3 0 1 1 3 1 0 0 0 0 3
    r.Fx_star = 0 ∧ r.Fy_star = 0 ∧ r.Fz_star = 0 ∧
    r.x_out = 1 ∧ r.px_out = 0 ∧ r.y_out = 0 ∧ r.py_out = 0 ∧
    r.zeta_out = 0 ∧ r.pzeta_out = 3 ∧ r.part_out = 3 :=
  synchrobeam_kick_zero_intensity env0 el3 0 1 1 3 1 0 0 0 0 3
    (by norm_num [el3, el8, slice0]) rfl (by norm_num [env0])
    (fun p dz => by simp [env0]) (fun p sx sy vz => by simp [env0])

/-- C4: for every slice whose num_macroparticles is at most 2 the slice
loop does not invoke synchrobeam_kick and the state is unchanged by that
iteration, for every collaborator environment; the model has no error
channel, so the skip is silent.  hsync reflects that the loop keeps the
local pzeta synchronized with the particle's internal pzeta. -/
theorem track_loop_skips_small_slice (env : Env) (el : BeamBeamBiGaussian3DData)
    (q0 p0c : ℚ) (st : TrackState) (i_slice : ℕ)
    (h : (el.slices_other_beam i_slice).num_macroparticles ≤ 2)
    (hsync : st.pzeta = st.part_pzeta) :
    synchrobeam_slice_step env el q0 p0c st i_slice = st := by
  unfold synchrobeam_slice_step
  dsimp only
  rw [if_neg (not_lt.mpr h)]
  ext <;> simp [hsync]

/-- Witness for C4: a concrete slice with exactly 2 macroparticles leaves a
concrete synchronized state unchanged. -/
theorem track_loop_skips_small_slice_witness :
    synchrobeam_slice_step env0 el4 1 1 st0 0 = st0 :=
  track_loop_skips_small_slice env0 el4 1 1 st0 0
    (by norm_num [el4, el8, slice0]) rfl

/-- Helper: one slice-loop iteration carries the transverse coordinates and
zeta to equal values when the two runs agree on them beforehand, for any two
beamstrahlung modes and any pzeta/particle energy states. -/
lemma slice_step_transverse_congr (env : Env) (el : BeamBeamBiGaussian3DData) (m1 m2 : ℤ)
    (q0 p0c : ℚ) (st1 st2 : TrackState) (a : ℕ)
    (h1 : st1.x = st2.x) (h2 : st1.px = st2.px) (h3 : st1.y = st2.y)
    (h4 : st1.py = st2.py) (h5 : st1.zeta = st2.zeta) :
    (synchrobeam_slice_step env { el with do_beamstrahlung := m1 } q0 p0c st1 a).x =
      (synchrobeam_slice_step env { el with do_beamstrahlung := m2 } q0 p0c st2 a).x ∧
    (synchrobeam_slice_step env { el with do_beamstrahlung := m1 } q0 p0c st1 a).px =
      (synchrobeam_slice_step env { el with do_beamstrahlung := m2 } q0 p0c st2 a).px ∧
    (synchrobeam_slice_step env { el with do_beamstrahlung := m1 } q0 p0c st1 a).y =
      (synchrobeam_slice_step env { el with do_beamstrahlung := m2 } q0 p0c st2 a).y ∧
    (synchrobeam_slice_step env { el with do_beamstrahlung := m1 } q0 p0c st1 a).py =
      (synchrobeam_slice_step env { el with do_beamstrahlung := m2 } q0 p0c st2 a).py ∧
    (synchrobeam_slice_step env { el with do_beamstrahlung := m1 } q0 p0c st1 a).zeta =
      (synchrobeam_slice_step env { el with do_beamstrahlung := m2 } q0 p0c st2 a).zeta := by
  unfold synchrobeam_slice_step
  dsimp only
  rw [← h1, ← h2, ← h3, ← h4, ← h5]
  split_ifs with hg
  · exact ⟨rfl, rfl, rfl, rfl, rfl⟩
  · exact ⟨rfl, rfl, rfl, rfl, rfl⟩

/-- Helper: folding the slice step over any index list preserves agreement
of the transverse coordinates and zeta between two runs that differ only in
the beamstrahlung mode and the energy states. -/
lemma foldl_slice_step_transverse_congr (env : Env) (el : BeamBeamBiGaussian3DData)
    (m1 m2 : ℤ) (q0 p0c : ℚ) :
    ∀ (l : List ℕ) (st1 st2 : TrackState),
      st1.x = st2.x → st1.px = st2.px → st1.y = st2.y → st1.py = st2.py → st1.zeta = st2.zeta →
      (l.foldl (synchrobeam_slice_step env { el with do_beamstrahlung := m1 } q0 p0c) st1).x =
        (l.foldl (synchrobeam_slice_step env { el with do_beamstrahlung := m2 } q0 p0c) st2).x ∧
      (l.foldl (synchrobeam_slice_step env { el with do_beamstrahlung := m1 } q0 p0c) st1).px =
        (l.foldl (synchrobeam_slice_step env { el with do_beamstrahlung := m2 } q0 p0c) st2).px ∧
      (l.foldl (synchrobeam_slice_step env { el with do_beamstrahlung := m1 } q0 p0c) st1).y =
        (l.foldl (synchrobeam_slice_step env { el with do_beamstrahlung := m2 } q0 p0c) st2).y ∧
      (l.foldl (synchrobeam_slice_step env { el with do_beamstrahlung := m1 } q0 p0c) st1).py =
        (l.foldl (synchrobeam_slice_step env { el with do_beamstrahlung := m2 } q0 p0c) st2).py ∧
      (l.foldl (synchrobeam_slice_step env { el with do_beamstrahlung := m1 } q0 p0c) st1).zeta =
        (l.foldl (synchrobeam_slice_step env { el with do_beamstrahlung := m2 } q0 p0c) st2).zeta := by
  intro l
  induction l with
  | nil => intro st1 st2 h1 h2 h3 h4 h5; exact ⟨h1, h2, h3, h4, h5⟩
  | cons a t ih =>
    intro st1 st2 h1 h2 h3 h4 h5
    rw [List.foldl_cons, List.foldl_cons]
    obtain ⟨g1, g2, g3, g4, g5⟩ := slice_step_transverse_congr env el m1 m2 q0 p0c st1 st2 a h1 h2 h3 h4 h5
    exact ih _ _ g1 g2 g3 g4 g5

/-- C7: with beamstrahlung mode 0 versus mode 2 and identical inputs, the
full slice loop produces identical x, px, y, py (the transverse kick does
not depend on the mode), and within one kick the resulting pzeta values
differ exactly by the deterministic average energy-loss term of the
averaged radiation model, which is reloaded into pzeta before the final
kick update; hpz reflects that the driver invokes the kick with the local
pzeta reloaded from the particle. -/
theorem beamstrahlung_toggle_transverse_invariance (env : Env)
    (el : BeamBeamBiGaussian3DData) (q0 p0c : ℚ) (st : TrackState)
    (i_slice : ℕ) (part x px y py zeta pz : ℚ) (hpz : pz = part) :
    (let r0 := BeamBeamBiGaussian3D_track_slices env { el with do_beamstrahlung := 0 } q0 p0c st
     let r2 := BeamBeamBiGaussian3D_track_slices env { el with do_beamstrahlung := 2 } q0 p0c st
     r0.x = r2.x ∧ r0.px = r2.px ∧ r0.y = r2.y ∧ r0.py = r2.py) ∧
    (let k0 := synchrobeam_kick env { el with do_beamstrahlung := 0 } i_slice q0 p0c part x px y py zeta pz
     let k2 := synchrobeam_kick env { el with do_beamstrahlung := 2 } i_slice q0 p0c part x px y py zeta pz
     k2.x_out = k0.x_out ∧ k2.px_out = k0.px_out ∧ k2.y_out = k0.y_out ∧ k2.py_out = k0.py_out ∧
     k2.pzeta_bs = env.synrad_avg part (el.slices_other_beam i_slice).num_particles
       (env.sqrt k2.Sig_11_hat_star) (env.sqrt k2.Sig_33_hat_star) 0.0121 ∧
     k2.pzeta_out - k0.pzeta_out = k2.pzeta_bs - part) := by
  constructor
  · obtain ⟨g1, g2, g3, g4, _⟩ := foldl_slice_step_transverse_congr env el 0 2 q0 p0c
      (List.range el.num_slices_other_beam) st st rfl rfl rfl rfl rfl
    exact ⟨g1, g2, g3, g4⟩
  · refine ⟨rfl, rfl, rfl, rfl, ?_, ?_⟩
    · simp only [synchrobeam_kick]
      norm_num
    · simp only [synchrobeam_kick]
      norm_num
      rw [hpz]

/-- Witness for C7: concrete two-slice element, concrete state. -/
theorem beamstrahlung_toggle_transverse_invariance_witness :
    (let r0 := BeamBeamBiGaussian3D_track_slices env0 { el8 with do_beamstrahlung := 0 } 1 1 st0
     let r2 := BeamBeamBiGaussian3D_track_slices env0 { el8 with do_beamstrahlung := 2 } 1 1 st0
     r0.x = r2.x ∧ r0.px = r2.px ∧ r0.y = r2.y ∧ r0.py = r2.py) ∧
    (let k0 := synchrobeam_kick env0 { el8 with do_beamstrahlung := 0 } 0 1 1 2 1 0 0 0 0 2
     let k2 := synchrobeam_kick env0 { el8 with do_beamstrahlung := 2 } 0 1 1 2 1 0 0 0 0 2
     k2.x_out = k0.x_out ∧ k2.px_out = k0.px_out ∧ k2.y_out = k0.y_out ∧ k2.py_out = k0.py_out ∧
     k2.pzeta_bs = env0.synrad_avg 2 (el8.slices_other_beam 0).num_particles
       (env0.sqrt k2.Sig_11_hat_star) (env0.sqrt k2.Sig_33_hat_star) 0.0121 ∧
     k2.pzeta_out - k0.pzeta_out = k2.pzeta_bs - 2) :=
  beamstrahlung_toggle_transverse_invariance env0 el8 1 1 st0 0 2 1 0 0 0 0 2 rfl

set_option maxHeartbeats 1000000 in
/-- C8: slice application is order-dependent: on the asymmetric two-slice
table el8 and the state st0, applying the slices in the driver's increasing
order 0, 1 yields a different final pzeta than applying them in reverse
order, so the per-slice kick maps do not commute in general. -/
theorem slice_order_sensitivity :
    (BeamBeamBiGaussian3D_track_slices env0 el8 1 QELEM st0).pzeta ≠
    ((List.range el8.num_slices_other_beam).reverse.foldl
      (synchrobeam_slice_step env0 el8 1 QELEM) st0).pzeta := by
  norm_num [BeamBeamBiGaussian3D_track_slices, synchrobeam_slice_step, synchrobeam_kick,
    env0, el8, slice0, st0, QELEM, C_LIGHT, List.range_succ]

/-- C10: the loop's skip decision reads num_macroparticles while the kick's
force scale reads the separate num_particles field: a slice with
num_particles = 0 but num_macroparticles above 2 still invokes the kick,
including the averaged radiation branch when mode 2 is enabled, so the
particle's energy state is updated by synrad_avg even though every kick
component vanishes. -/
theorem skip_guard_and_intensity_distinct (env : Env) (el : BeamBeamBiGaussian3DData)
    (q0 p0c : ℚ) (st : TrackState) (i_slice : ℕ)
    (h2 : 2 < (el.slices_other_beam i_slice).num_macroparticles)
    (h0 : (el.slices_other_beam i_slice).num_particles = 0)
    (hm : el.do_beamstrahlung = 2) :
    let sl := el.slices_other_beam i_slice
    let pr := env.Sigmas_propagate sl.Sigma_11_star sl.Sigma_12_star sl.Sigma_13_star
      sl.Sigma_14_star sl.Sigma_22_star sl.Sigma_23_star sl.Sigma_24_star sl.Sigma_33_star
      sl.Sigma_34_star sl.Sigma_44_star (0.5 * (st.zeta - sl.zeta_center_star))
      el.threshold_singular 1
    let eloss := env.synrad_avg st.part_pzeta 0 (env.sqrt pr.Sig_11_hat_star)
      (env.sqrt pr.Sig_33_hat_star) 0.0121
    synchrobeam_slice_step env el q0 p0c st i_slice =
      { st with pzeta := eloss, part_pzeta := eloss } := by
  intro sl pr eloss
  unfold synchrobeam_slice_step
  dsimp only
  rw [if_pos h2]
  ext <;> simp [synchrobeam_kick, h0, hm, sl, pr, eloss]

/-- Witness for C10: the zero-intensity, 10-macroparticle slice of el3 with
mode 2 still runs the kick and the averaged radiation branch. -/
theorem skip_guard_and_intensity_distinct_witness :
    let sl := el3.slices_other_beam 0
    let pr := env0.Sigmas_propagate sl.Sigma_11_star sl.Sigma_12_star sl.Sigma_13_star
      sl.Sigma_14_star sl.Sigma_22_star sl.Sigma_23_star sl.Sigma_24_star sl.Sigma_33_star
      sl.Sigma_34_star sl.Sigma_44_star (0.5 * (st0.zeta - sl.zeta_center_star))
      el3.threshold_singular 1
    let eloss := env0.synrad_avg st0.part_pzeta 0 (env0.sqrt pr.Sig_11_hat_star)
      (env0.sqrt pr.Sig_33_hat_star) 0.0121
    synchrobeam_slice_step env0 el3 1 1 st0 0 =
      { st0 with pzeta := eloss, part_pzeta := eloss } :=
  skip_guard_and_intensity_distinct env0 el3 1 1 st0 0
    (by norm_num [el3, el8, slice0]) (by norm_num [el3, el8, slice0]) rfl
